import Mathlib

/-!
Verification of the sky-map reprojection backend (src/backend.py).

The file shallowly embeds the reprojection endpoint `get_skymap_crop` and the
coordinate resolver `get_apparent_coords`.  Request numbers are modelled as
rationals (every IEEE float is a rational); the trigonometric field-of-view
computation lives in `ℝ`.  External collaborators (the astropy catalog lookup,
the AltAz transform chain, the `reproject_interp` resampler and the tile files
on disk) are parameters of the model, so every theorem quantifies over them.
-/

/-! ## Field-of-view calculator (backend.py lines 74-75) -/

/-- math.degrees: radians to degrees. -/
noncomputable def degreesOf (x : ℝ) : ℝ := x * 180 / Real.pi

/-- Per-axis field of view:
`2 * math.degrees(math.atan((pixel_pitch * pixels / 2000) / focal_length))`. -/
noncomputable def fovAxisDeg (pixel_pitch pixels focal_length : ℚ) : ℝ :=
  2 * degreesOf (Real.arctan (((pixel_pitch : ℝ) * (pixels : ℝ) / 2000) / (focal_length : ℝ)))

/-! ## Tile lookup (backend.py lines 88-94) -/

/-- Python float modulo by 360: the representative of `ra` in `[0, 360)`. -/
noncomputable def raMod360 (ra : ℝ) : ℝ := ra - 360 * ⌊ra / 360⌋

/-- `dec = max(-90, min(90, dec))`. -/
noncomputable def clampDec (dec : ℝ) : ℝ := max (-90) (min 90 dec)

/-- `col = math.floor((ra % 360) / 45)`. -/
noncomputable def tileCol (ra : ℝ) : ℤ := ⌊raMod360 ra / 45⌋

/-- `row = 0 if dec >= 45 else 1 if dec >= 0 else 2 if dec >= -45 else 3`,
applied to the clamped declination. -/
noncomputable def tileRow (dec : ℝ) : ℤ :=
  if 45 ≤ clampDec dec then 0
  else if 0 ≤ clampDec dec then 1
  else if -45 ≤ clampDec dec then 2
  else 3

/-- The tile-grid cell of one FOV corner. -/
noncomputable def tileCell (p : ℝ × ℝ) : ℤ × ℤ := (tileRow p.2, tileCol p.1)

/-- The four FOV corners, `(center ± half_fov_w, center ± half_fov_h)`
(backend.py lines 82-85). -/
noncomputable def fovCorners (center_ra center_dec half_fov_w half_fov_h : ℝ) : List (ℝ × ℝ) :=
  [(center_ra - half_fov_w, center_dec + half_fov_h),
   (center_ra + half_fov_w, center_dec + half_fov_h),
   (center_ra - half_fov_w, center_dec - half_fov_h),
   (center_ra + half_fov_w, center_dec - half_fov_h)]

/-- The cells of the four corners.  The source collects them into a Python
set; a list keeps the same minima, maxima, membership and non-emptiness, which
is all the set is used for. -/
noncomputable def needed_tiles_of (center_ra center_dec half_fov_w half_fov_h : ℝ) :
    List (ℤ × ℤ) :=
  (fovCorners center_ra center_dec half_fov_w half_fov_h).map tileCell

/-- Python `min` over a non-empty collection (the empty case is never reached:
the corner list always has four cells). -/
def listMin : List ℤ → ℤ
  | [] => 0
  | x :: xs => xs.foldl min x

/-- Python `max` over a non-empty collection. -/
def listMax : List ℤ → ℤ
  | [] => 0
  | x :: xs => xs.foldl max x

/-! ## Request data and validation (backend.py lines 62-69) -/

/-- The JSON body of a reprojection request.  A missing key is `none`
(`data.get(...)` returns `None`); JSON `null` is also `none`. -/
structure RequestData where
  ra : Option ℚ
  dec : Option ℚ
  target_name : Option String
  longitude : Option ℚ
  latitude : Option ℚ
  focal_length : Option ℚ
  sensor_width_px : Option ℚ
  sensor_height_px : Option ℚ
  pixel_pitch : Option ℚ

/-- Python truthiness of an optional number: `None` and `0` are falsy. -/
def truthy : Option ℚ → Bool
  | none => false
  | some v => v != 0

/-- `all([focal_length, sensor_width_px, sensor_height_px, pixel_pitch])`. -/
def cameraValid (d : RequestData) : Bool :=
  truthy d.focal_length && truthy d.sensor_width_px &&
    truthy d.sensor_height_px && truthy d.pixel_pitch

/-! ## Coordinate resolver (backend.py lines 45-55) -/

/-- The astropy named-object catalog (`get_icrs_coordinates`): a name either
resolves to an ICRS position or raises. -/
def Catalog : Type := String → Option (ℚ × ℚ)

/-- The astropy AltAz round trip: catalog position, observer (lon, lat) and
the current instant give the apparent ICRS position. -/
def AltAzChain : Type := ℚ × ℚ → ℚ × ℚ → ℝ → ℝ × ℝ

/-- `get_apparent_coords`: explicit `ra`/`dec` pass through unchanged; only
otherwise are the observer location and the catalog consulted at the current
instant.  A missing location field or a failed lookup raises (`.error`). -/
def get_apparent_coords (catalog : Catalog) (altaz : AltAzChain) (now : ℝ)
    (d : RequestData) : Except Unit (ℝ × ℝ) :=
  match d.ra, d.dec with
  | some r, some dc => Except.ok ((r : ℝ), (dc : ℝ))
  | _, _ =>
    match d.longitude, d.latitude, d.target_name with
    | some lon, some lat, some nm =>
      match catalog nm with
      | some base => Except.ok (altaz base (lon, lat) now)
      | none => Except.error ()
    | _, _, _ => Except.error ()

/-! ## Pixel samples and the output post-processing (backend.py line 141) -/

/-- One resampled value as `reproject_interp` returns it: a float, NaN where
the inverse projection leaves the source footprint or the interpolation lacks
data, or an infinity. -/
inductive PixelSample where
  | nan
  | posinf
  | neginf
  | val (q : ℚ)

/-- `np.finfo(np.float64).max = 1.7976931348623157e308`. -/
def float64_max : ℚ := 17976931348623157 * 10 ^ 292

/-- `np.nan_to_num` with default arguments. -/
def nan_to_num : PixelSample → ℚ
  | PixelSample.nan => 0
  | PixelSample.posinf => float64_max
  | PixelSample.neginf => -float64_max
  | PixelSample.val q => q

/-- C-style float-to-integer conversion: truncation toward zero. -/
def rat_trunc (q : ℚ) : ℤ := if 0 ≤ q then ⌊q⌋ else ⌈q⌉

/-- `np.ndarray.astype(np.uint8)`: truncate toward zero, wrap modulo 256. -/
def astype_uint8 (q : ℚ) : ℤ := rat_trunc q % 256

/-- `np.nan_to_num(...).astype(np.uint8)` applied to one sample. -/
def postprocess (s : PixelSample) : ℤ := astype_uint8 (nan_to_num s)

/-! ## Tile store and composite stitching (backend.py lines 99-114) -/

/-- A 2048 x 2048 tile image: RGB value at (x, y). -/
def Tile : Type := ℕ → ℕ → ℚ × ℚ × ℚ

/-- The `skymapsplit` directory: the tile file for `(row, col)`, when it
exists on disk. -/
def TileStore : Type := ℤ → ℤ → Option Tile

/-- The pixel of the stitched composite at (x, y): the loop pastes the tile of
cell `(min_row + y_block, min_col + x_block)` at offset
`(x_block * 2048, y_block * 2048)` when the cell is needed and its file
exists, and `Image.new` leaves every other pixel black. -/
def compositePixel (needed_tiles : List (ℤ × ℤ)) (store : TileStore)
    (min_row min_col : ℤ) (x y : ℕ) : ℚ × ℚ × ℚ :=
  let r : ℤ := min_row + ((y / 2048 : ℕ) : ℤ)
  let c : ℤ := min_col + ((x / 2048 : ℕ) : ℤ)
  if (r, c) ∈ needed_tiles then
    match store r c with
    | some tile => tile (x % 2048) (y % 2048)
    | none => (0, 0, 0)
  else (0, 0, 0)

/-! ## Projection definitions (backend.py lines 117-131) -/

/-- A FITS WCS header as the endpoint fills it. -/
structure Wcs where
  crpix1 : ℝ
  crpix2 : ℝ
  crval1 : ℝ
  crval2 : ℝ
  cdelt1 : ℝ
  cdelt2 : ℝ
  ctype1 : String
  ctype2 : String

/-- `dec_centers = [67.5, 22.5, -22.5, -67.5]`. -/
noncomputable def dec_centers : List ℝ := [67.5, 22.5, -22.5, -67.5]

/-- `dec_centers[r]` for a row index (rows are always 0..3). -/
noncomputable def dec_center (r : ℤ) : ℝ := dec_centers.getD r.toNat 0

/-- The WCS of the stitched composite (backend.py lines 117-124). -/
noncomputable def stitchedWcs (min_row max_row min_col max_col : ℤ) : Wcs :=
  let rows : ℤ := max_row - min_row + 1
  let cols : ℤ := max_col - min_col + 1
  { crpix1 := (((cols * 2048 : ℤ) : ℝ) + 1) / 2
    crpix2 := (((rows * 2048 : ℤ) : ℝ) + 1) / 2
    crval1 := ((min_col : ℝ) * 45) + ((cols : ℝ) * 45 / 2)
    crval2 := (∑ r ∈ Finset.Icc min_row max_row, dec_center r) / (rows : ℝ)
    cdelt1 := -45 / 2048
    cdelt2 := 45 / 2048
    ctype1 := "RA---CAR"
    ctype2 := "DEC--CAR" }

/-- The WCS of the rendered output (backend.py lines 127-131). -/
noncomputable def outputWcs (focal_length pixel_pitch sensor_width_px sensor_height_px : ℚ)
    (center_ra center_dec : ℝ) : Wcs :=
  { crpix1 := ((sensor_width_px : ℝ) + 1) / 2
    crpix2 := ((sensor_height_px : ℝ) + 1) / 2
    crval1 := center_ra
    crval2 := center_dec
    cdelt1 := -fovAxisDeg pixel_pitch sensor_width_px focal_length / (sensor_width_px : ℝ)
    cdelt2 := fovAxisDeg pixel_pitch sensor_height_px focal_length / (sensor_height_px : ℝ)
    ctype1 := "RA---TAN"
    ctype2 := "DEC--TAN" }

/-! ## The endpoint (backend.py lines 58-149) -/

/-- `reproject_interp((plane, input_wcs), output_wcs, shape_out)` sampled at
one output pixel. -/
def ReprojFn : Type :=
  (ℕ → ℕ → ℚ) → Wcs → Wcs → ℚ × ℚ → ℕ → ℕ → PixelSample

/-- Everything the successful path of `get_skymap_crop` computes. -/
structure CropOutput where
  min_row : ℤ
  max_row : ℤ
  min_col : ℤ
  max_col : ℤ
  rows : ℤ
  cols : ℤ
  composite_width : ℤ
  composite_height : ℤ
  composite : ℕ → ℕ → ℚ × ℚ × ℚ
  stitched_wcs : Wcs
  output_wcs : Wcs
  output_shape : ℚ × ℚ
  sampleR : ℕ → ℕ → PixelSample
  sampleG : ℕ → ℕ → PixelSample
  sampleB : ℕ → ℕ → PixelSample
  outPixel : ℕ → ℕ → ℤ × ℤ × ℤ

/-- The body of `get_skymap_crop` after the camera parameters are validated
and the pointing is resolved to `(center_ra, center_dec)`. -/
noncomputable def buildCrop (reproj : ReprojFn) (store : TileStore)
    (focal_length pixel_pitch sensor_width_px sensor_height_px : ℚ)
    (center_ra center_dec : ℝ) : CropOutput :=
  let fov_width_deg := fovAxisDeg pixel_pitch sensor_width_px focal_length
  let fov_height_deg := fovAxisDeg pixel_pitch sensor_height_px focal_length
  let half_fov_w := fov_width_deg / 2
  let half_fov_h := fov_height_deg / 2
  let needed_tiles := needed_tiles_of center_ra center_dec half_fov_w half_fov_h
  let min_row := listMin (needed_tiles.map Prod.fst)
  let max_row := listMax (needed_tiles.map Prod.fst)
  let min_col := listMin (needed_tiles.map Prod.snd)
  let max_col := listMax (needed_tiles.map Prod.snd)
  let rows := max_row - min_row + 1
  let cols := max_col - min_col + 1
  let composite := compositePixel needed_tiles store min_row min_col
  let stitched := stitchedWcs min_row max_row min_col max_col
  let output := outputWcs focal_length pixel_pitch sensor_width_px sensor_height_px
    center_ra center_dec
  let shape : ℚ × ℚ := (sensor_height_px, sensor_width_px)
  let sR := reproj (fun a b => (composite a b).1) stitched output shape
  let sG := reproj (fun a b => (composite a b).2.1) stitched output shape
  let sB := reproj (fun a b => (composite a b).2.2) stitched output shape
  { min_row := min_row
    max_row := max_row
    min_col := min_col
    max_col := max_col
    rows := rows
    cols := cols
    composite_width := cols * 2048
    composite_height := rows * 2048
    composite := composite
    stitched_wcs := stitched
    output_wcs := output
    output_shape := shape
    sampleR := sR
    sampleG := sG
    sampleB := sB
    outPixel := fun x y => (postprocess (sR x y), postprocess (sG x y), postprocess (sB x y)) }

/-- The failure kinds the endpoint can surface: the 400 for missing camera
parameters, the 500 for an empty needed-tile set, and the catch-all 500 of the
outer exception handler (which a resolver failure reaches). -/
inductive SkymapError where
  | validation
  | noTiles
  | internal

/-- `get_skymap_crop`: validate the camera parameters, resolve the pointing,
compute the FOV and its corner tiles, stitch the composite, build both WCS
definitions and resample. -/
noncomputable def get_skymap_crop (catalog : Catalog) (altaz : AltAzChain)
    (reproj : ReprojFn) (store : TileStore) (now : ℝ) (d : RequestData) :
    Except SkymapError CropOutput :=
  if cameraValid d then
    match get_apparent_coords catalog altaz now d with
    | Except.error _ => Except.error SkymapError.internal
    | Except.ok (center_ra, center_dec) =>
      let focal_length := d.focal_length.getD 0
      let pixel_pitch := d.pixel_pitch.getD 0
      let sensor_width_px := d.sensor_width_px.getD 0
      let sensor_height_px := d.sensor_height_px.getD 0
      let fov_width_deg := fovAxisDeg pixel_pitch sensor_width_px focal_length
      let fov_height_deg := fovAxisDeg pixel_pitch sensor_height_px focal_length
      let needed_tiles := needed_tiles_of center_ra center_dec
        (fov_width_deg / 2) (fov_height_deg / 2)
      if needed_tiles.isEmpty then Except.error SkymapError.noTiles
      else
        Except.ok (buildCrop reproj store focal_length pixel_pitch
          sensor_width_px sensor_height_px center_ra center_dec)
  else Except.error SkymapError.validation

/-! ## Helper lemmas -/

theorem foldl_min_le_init (xs : List ℤ) (a : ℤ) : xs.foldl min a ≤ a := by
  induction xs generalizing a with
  | nil => exact le_refl a
  | cons b bs ih => exact le_trans (ih (min a b)) (min_le_left a b)

theorem foldl_min_le_of_mem (xs : List ℤ) (a x : ℤ) (h : x ∈ xs) : xs.foldl min a ≤ x := by
  induction xs generalizing a with
  | nil => cases h
  | cons b bs ih =>
    rcases List.mem_cons.mp h with rfl | h2
    · exact le_trans (foldl_min_le_init bs (min a x)) (min_le_right a x)
    · exact ih (min a b) h2

theorem listMin_le_of_mem (l : List ℤ) (x : ℤ) (h : x ∈ l) : listMin l ≤ x := by
  cases l with
  | nil => cases h
  | cons a as =>
    rcases List.mem_cons.mp h with rfl | h2
    · exact foldl_min_le_init as x
    · exact foldl_min_le_of_mem as a x h2

theorem le_foldl_max_init (xs : List ℤ) (a : ℤ) : a ≤ xs.foldl max a := by
  induction xs generalizing a with
  | nil => exact le_refl a
  | cons b bs ih => exact le_trans (le_max_left a b) (ih (max a b))

theorem le_foldl_max_of_mem (xs : List ℤ) (a x : ℤ) (h : x ∈ xs) : x ≤ xs.foldl max a := by
  induction xs generalizing a with
  | nil => cases h
  | cons b bs ih =>
    rcases List.mem_cons.mp h with rfl | h2
    · exact le_trans (le_max_right a x) (le_foldl_max_init bs (max a x))
    · exact ih (max a b) h2

theorem le_listMax_of_mem (l : List ℤ) (x : ℤ) (h : x ∈ l) : x ≤ listMax l := by
  cases l with
  | nil => cases h
  | cons a as =>
    rcases List.mem_cons.mp h with rfl | h2
    · exact le_foldl_max_init as x
    · exact le_foldl_max_of_mem as a x h2

theorem raMod360_identity (ra : ℝ) : 360 * (ra / 360) = ra := by ring

theorem raMod360_nonneg (ra : ℝ) : 0 ≤ raMod360 ra := by
  have h1 : ((⌊ra / 360⌋ : ℤ) : ℝ) ≤ ra / 360 := Int.floor_le (ra / 360)
  have h2 : 360 * ((⌊ra / 360⌋ : ℤ) : ℝ) ≤ 360 * (ra / 360) := by linarith
  have h3 := raMod360_identity ra
  unfold raMod360
  linarith

theorem raMod360_lt (ra : ℝ) : raMod360 ra < 360 := by
  have h1 : ra / 360 < ((⌊ra / 360⌋ : ℤ) : ℝ) + 1 := Int.lt_floor_add_one (ra / 360)
  have h2 : 360 * (ra / 360) < 360 * (((⌊ra / 360⌋ : ℤ) : ℝ) + 1) := by linarith
  have h3 := raMod360_identity ra
  unfold raMod360
  linarith

theorem tileCol_nonneg (ra : ℝ) : 0 ≤ tileCol ra := by
  unfold tileCol
  exact Int.floor_nonneg.mpr (div_nonneg (raMod360_nonneg ra) (by norm_num))

theorem tileCol_le_seven (ra : ℝ) : tileCol ra ≤ 7 := by
  have h : tileCol ra < 8 := by
    unfold tileCol
    refine Int.floor_lt.mpr ?_
    have h1 := raMod360_lt ra
    rw [div_lt_iff₀ (by norm_num : (0 : ℝ) < 45)]
    push_cast
    linarith
  omega

theorem clampDec_ge (dec : ℝ) : -90 ≤ clampDec dec := le_max_left (-90) (min 90 dec)

theorem clampDec_le (dec : ℝ) : clampDec dec ≤ 90 :=
  max_le (by norm_num) (min_le_left 90 dec)

theorem clampDec_idem (dec : ℝ) : clampDec (clampDec dec) = clampDec dec := by
  have h1 := clampDec_ge dec
  have h2 := clampDec_le dec
  have h3 : clampDec (clampDec dec) = max (-90) (min 90 (clampDec dec)) := rfl
  rw [h3, min_eq_right h2, max_eq_right h1]

theorem tileRow_clamp (dec : ℝ) : tileRow dec = tileRow (clampDec dec) := by
  unfold tileRow
  rw [clampDec_idem]

theorem tileRow_bounds (dec : ℝ) : 0 ≤ tileRow dec ∧ tileRow dec ≤ 3 := by
  unfold tileRow
  split_ifs <;> omega

theorem postprocess_range (s : PixelSample) : 0 ≤ postprocess s ∧ postprocess s ≤ 255 := by
  unfold postprocess astype_uint8
  constructor
  · exact Int.emod_nonneg (rat_trunc (nan_to_num s)) (by norm_num)
  · have h := Int.emod_lt_of_pos (rat_trunc (nan_to_num s)) (show (0 : ℤ) < 256 by norm_num)
    omega

theorem apparent_coords_explicit (catalog : Catalog) (altaz : AltAzChain) (now : ℝ)
    (d : RequestData) (r dc : ℚ) (hra : d.ra = some r) (hdec : d.dec = some dc) :
    get_apparent_coords catalog altaz now d = Except.ok ((r : ℝ), (dc : ℝ)) := by
  unfold get_apparent_coords
  rw [hra, hdec]

theorem needed_tiles_of_isEmpty (center_ra center_dec half_fov_w half_fov_h : ℝ) :
    (needed_tiles_of center_ra center_dec half_fov_w half_fov_h).isEmpty = false := rfl

theorem skymap_crop_ok (catalog : Catalog) (altaz : AltAzChain) (reproj : ReprojFn)
    (store : TileStore) (now : ℝ) (d : RequestData) (center_ra center_dec : ℝ)
    (hv : cameraValid d = true)
    (hres : get_apparent_coords catalog altaz now d = Except.ok (center_ra, center_dec)) :
    get_skymap_crop catalog altaz reproj store now d =
      Except.ok (buildCrop reproj store (d.focal_length.getD 0) (d.pixel_pitch.getD 0)
        (d.sensor_width_px.getD 0) (d.sensor_height_px.getD 0) center_ra center_dec) := by
  unfold get_skymap_crop
  rw [hres]
  simp only [hv, if_true, needed_tiles_of_isEmpty, Bool.false_eq_true, if_false]

/-! ## Concrete model inputs used by the witnesses -/

/-- A catalog that resolves every name (to the origin). -/
def catalogSome : Catalog := fun _ => some (0, 0)

/-- A trivial AltAz transform chain. -/
def altazZero : AltAzChain := fun _ _ _ => ((0 : ℝ), (0 : ℝ))

/-- A resampler that reports no data anywhere. -/
def reprojNan : ReprojFn := fun _ _ _ _ _ _ => PixelSample.nan

/-- A tile directory with no tile file at all. -/
def emptyStore : TileStore := fun _ _ => none

/-- A request giving explicit coordinates and also a named target with an
observer location. -/
def dBoth : RequestData :=
  { ra := some 10, dec := some 41, target_name := some "andromeda",
    longitude := some 7, latitude := some 51, focal_length := some 50,
    sensor_width_px := some 4000, sensor_height_px := some 3000, pixel_pitch := some 5 }

/-- A request with a negative focal length and otherwise positive camera
parameters. -/
def negFocalReq : RequestData :=
  { ra := some 10, dec := some 41, target_name := none, longitude := none,
    latitude := none, focal_length := some (-50), sensor_width_px := some 6000,
    sensor_height_px := some 4000, pixel_pitch := some 4 }

/-- A request whose focal length is absent. -/
def noFocalReq : RequestData :=
  { ra := some 10, dec := some 41, target_name := none, longitude := none,
    latitude := none, focal_length := none, sensor_width_px := some 6000,
    sensor_height_px := some 4000, pixel_pitch := some 4 }

/-! ## C1: the field-of-view formula -/

/-- C1: for every camera spec accepted by request validation, the computed
field of view on each axis equals `2*atan((pitch*pixels/2000)/focal)` in
degrees; in particular for focal 50 mm, pitch 5 um and 4000 pixels the FOV
width equals `2*atan(5*4000/2000/50)` in degrees. -/
theorem fov_axis_formula (d : RequestData) (f p w h : ℚ)
    (hv : cameraValid d = true)
    (hf : d.focal_length = some f) (hp : d.pixel_pitch = some p)
    (hw : d.sensor_width_px = some w) (hh : d.sensor_height_px = some h) :
    fovAxisDeg p w f = 2 * Real.arctan (((p : ℝ) * (w : ℝ) / 2000) / (f : ℝ)) * (180 / Real.pi) ∧
    fovAxisDeg p h f = 2 * Real.arctan (((p : ℝ) * (h : ℝ) / 2000) / (f : ℝ)) * (180 / Real.pi) ∧
    fovAxisDeg 5 4000 50 = 2 * Real.arctan (5 * 4000 / 2000 / 50) * (180 / Real.pi) := by
  refine ⟨?_, ?_, ?_⟩ <;> simp only [fovAxisDeg, degreesOf] <;> push_cast <;> ring

theorem fov_axis_formula_witness :
    fovAxisDeg 5 4000 50 =
        2 * Real.arctan ((((5 : ℚ) : ℝ) * ((4000 : ℚ) : ℝ) / 2000) / ((50 : ℚ) : ℝ)) *
          (180 / Real.pi) ∧
    fovAxisDeg 5 3000 50 =
        2 * Real.arctan ((((5 : ℚ) : ℝ) * ((3000 : ℚ) : ℝ) / 2000) / ((50 : ℚ) : ℝ)) *
          (180 / Real.pi) ∧
    fovAxisDeg 5 4000 50 = 2 * Real.arctan (5 * 4000 / 2000 / 50) * (180 / Real.pi) :=
  fov_axis_formula dBoth 50 5 4000 3000 (by decide) rfl rfl rfl rfl

/-! ## C2: explicit coordinates pass through unchanged -/

/-- C2: when `ra` and `dec` are both present and non-null, the resolver
returns exactly those values, and the named-target / observer-location path
is never executed: the result does not depend on the catalog, the AltAz
chain or the clock, even when a target name and location are also given. -/
theorem explicit_radec_passthrough (catalog : Catalog) (altaz : AltAzChain) (now : ℝ)
    (d : RequestData) (r dc : ℚ) (hra : d.ra = some r) (hdec : d.dec = some dc) :
    get_apparent_coords catalog altaz now d = Except.ok ((r : ℝ), (dc : ℝ)) :=
  apparent_coords_explicit catalog altaz now d r dc hra hdec

theorem explicit_radec_passthrough_witness :
    get_apparent_coords catalogSome altazZero 0 dBoth =
      Except.ok (((10 : ℚ) : ℝ), ((41 : ℚ) : ℝ)) :=
  explicit_radec_passthrough catalogSome altazZero 0 dBoth 10 41 rfl rfl

/-! ## C5: totality of the tile lookup -/

/-- C5: for every corner `(ra, dec)` with arbitrary real coordinates, the
lookup reduces `ra` modulo 360 into `[0, 360)` and picks the column
`floor(ra/45)` (so columns lie in 0..7), clamps `dec` into `[-90, 90]` and
picks the row by the bands `>=45 -> 0`, `[0,45) -> 1`, `[-45,0) -> 2`,
`<-45 -> 3`; hence every corner maps to exactly one `(row, col)` cell. -/
theorem tile_lookup_total (ra dec : ℝ) :
    (0 ≤ raMod360 ra ∧ raMod360 ra < 360) ∧
    tileCol ra = ⌊raMod360 ra / 45⌋ ∧
    (0 ≤ tileCol ra ∧ tileCol ra ≤ 7) ∧
    tileRow dec = tileRow (clampDec dec) ∧
    (-90 ≤ clampDec dec ∧ clampDec dec ≤ 90) ∧
    (45 ≤ clampDec dec → tileRow dec = 0) ∧
    (0 ≤ clampDec dec → clampDec dec < 45 → tileRow dec = 1) ∧
    (-45 ≤ clampDec dec → clampDec dec < 0 → tileRow dec = 2) ∧
    (clampDec dec < -45 → tileRow dec = 3) ∧
    (0 ≤ tileRow dec ∧ tileRow dec ≤ 3) ∧
    (∃! cell : ℤ × ℤ, tileCell (ra, dec) = cell) := by
  refine ⟨⟨raMod360_nonneg ra, raMod360_lt ra⟩, rfl, ⟨tileCol_nonneg ra, tileCol_le_seven ra⟩,
    tileRow_clamp dec, ⟨clampDec_ge dec, clampDec_le dec⟩, ?_, ?_, ?_, ?_, tileRow_bounds dec,
    ⟨tileCell (ra, dec), rfl, fun y hy => hy.symm⟩⟩
  · intro h45
    unfold tileRow
    rw [if_pos h45]
  · intro h0 h45
    unfold tileRow
    rw [if_neg (by linarith), if_pos h0]
  · intro hm45 h0
    unfold tileRow
    rw [if_neg (by linarith), if_neg (by linarith), if_pos hm45]
  · intro h
    unfold tileRow
    rw [if_neg (by linarith), if_neg (by linarith), if_neg (by linarith)]

/-! ## C7: the 8-bit conversion of output samples -/

/-- C7 (amended): after fill-value substitution every output sample is
converted by numpy astype(uint8) — truncation toward zero followed by
reduction modulo 256 into the representable range `[0, 255]` — a wrap, not a
clamp. -/
theorem output_sample_conversion (q : ℚ) :
    postprocess (PixelSample.val q) = rat_trunc q % 256 ∧
    0 ≤ postprocess (PixelSample.val q) ∧ postprocess (PixelSample.val q) ≤ 255 :=
  ⟨rfl, postprocess_range (PixelSample.val q)⟩

/-- C7 counterexample: an interpolated value of -1 becomes 255 (not 0), 256
becomes 0 (not 255) and 300.7 becomes 44: values outside `[0, 255]` are
wrapped modulo 256, not clamped. -/
theorem astype_uint8_not_clamp :
    postprocess (PixelSample.val (-1)) = 255 ∧
    postprocess (PixelSample.val 256) = 0 ∧
    postprocess (PixelSample.val (3007 / 10)) = 44 := by
  have h3 : (⌊(3007 / 10 : ℚ)⌋ : ℤ) = 300 := by
    rw [Int.floor_eq_iff]
    norm_num
  refine ⟨by decide, by decide, ?_⟩
  unfold postprocess nan_to_num astype_uint8 rat_trunc
  rw [if_pos (by norm_num), h3]
  decide

/-! ## Projection lemmas for the successful crop -/

theorem buildCrop_output_wcs (reproj : ReprojFn) (store : TileStore)
    (f p w h : ℚ) (ra dec : ℝ) :
    (buildCrop reproj store f p w h ra dec).output_wcs = outputWcs f p w h ra dec := rfl

theorem buildCrop_stitched_wcs (reproj : ReprojFn) (store : TileStore)
    (f p w h : ℚ) (ra dec : ℝ) :
    (buildCrop reproj store f p w h ra dec).stitched_wcs =
      stitchedWcs (buildCrop reproj store f p w h ra dec).min_row
        (buildCrop reproj store f p w h ra dec).max_row
        (buildCrop reproj store f p w h ra dec).min_col
        (buildCrop reproj store f p w h ra dec).max_col := rfl

theorem buildCrop_min_row (reproj : ReprojFn) (store : TileStore)
    (f p w h : ℚ) (ra dec : ℝ) :
    (buildCrop reproj store f p w h ra dec).min_row =
      listMin ((needed_tiles_of ra dec (fovAxisDeg p w f / 2) (fovAxisDeg p h f / 2)).map
        Prod.fst) := rfl

theorem buildCrop_max_row (reproj : ReprojFn) (store : TileStore)
    (f p w h : ℚ) (ra dec : ℝ) :
    (buildCrop reproj store f p w h ra dec).max_row =
      listMax ((needed_tiles_of ra dec (fovAxisDeg p w f / 2) (fovAxisDeg p h f / 2)).map
        Prod.fst) := rfl

theorem buildCrop_min_col (reproj : ReprojFn) (store : TileStore)
    (f p w h : ℚ) (ra dec : ℝ) :
    (buildCrop reproj store f p w h ra dec).min_col =
      listMin ((needed_tiles_of ra dec (fovAxisDeg p w f / 2) (fovAxisDeg p h f / 2)).map
        Prod.snd) := rfl

theorem buildCrop_max_col (reproj : ReprojFn) (store : TileStore)
    (f p w h : ℚ) (ra dec : ℝ) :
    (buildCrop reproj store f p w h ra dec).max_col =
      listMax ((needed_tiles_of ra dec (fovAxisDeg p w f / 2) (fovAxisDeg p h f / 2)).map
        Prod.snd) := rfl

theorem buildCrop_composite (reproj : ReprojFn) (store : TileStore)
    (f p w h : ℚ) (ra dec : ℝ) :
    (buildCrop reproj store f p w h ra dec).composite =
      compositePixel (needed_tiles_of ra dec (fovAxisDeg p w f / 2) (fovAxisDeg p h f / 2))
        store (buildCrop reproj store f p w h ra dec).min_row
        (buildCrop reproj store f p w h ra dec).min_col := rfl

theorem buildCrop_outPixel_fst (reproj : ReprojFn) (store : TileStore)
    (f p w h : ℚ) (ra dec : ℝ) (x y : ℕ) :
    ((buildCrop reproj store f p w h ra dec).outPixel x y).1 =
      postprocess ((buildCrop reproj store f p w h ra dec).sampleR x y) := rfl

theorem buildCrop_outPixel_snd_fst (reproj : ReprojFn) (store : TileStore)
    (f p w h : ℚ) (ra dec : ℝ) (x y : ℕ) :
    ((buildCrop reproj store f p w h ra dec).outPixel x y).2.1 =
      postprocess ((buildCrop reproj store f p w h ra dec).sampleG x y) := rfl

theorem buildCrop_outPixel_snd_snd (reproj : ReprojFn) (store : TileStore)
    (f p w h : ℚ) (ra dec : ℝ) (x y : ℕ) :
    ((buildCrop reproj store f p w h ra dec).outPixel x y).2.2 =
      postprocess ((buildCrop reproj store f p w h ra dec).sampleB x y) := rfl

theorem stitchedWcs_crval1_center (min_row max_row min_col max_col : ℤ) :
    (stitchedWcs min_row max_row min_col max_col).crval1 =
      (((min_col : ℝ) * 45) + (((max_col : ℝ) + 1) * 45)) / 2 := by
  show ((min_col : ℝ) * 45) + (((max_col - min_col + 1 : ℤ) : ℝ) * 45 / 2) = _
  push_cast
  ring

/-! ## C9: camera parameter validation -/

/-- C9 (amended): a camera parameter that is absent or zero fails the
truthiness validation and the endpoint returns the request-validation error
before any coordinate resolution, FOV computation or reprojection; negative
values, however, are truthy and pass the check. -/
theorem camera_validation_falsy (catalog : Catalog) (altaz : AltAzChain)
    (reproj : ReprojFn) (store : TileStore) (now : ℝ) (d : RequestData)
    (h : d.focal_length = none ∨ d.focal_length = some 0 ∨
         d.sensor_width_px = none ∨ d.sensor_width_px = some 0 ∨
         d.sensor_height_px = none ∨ d.sensor_height_px = some 0 ∨
         d.pixel_pitch = none ∨ d.pixel_pitch = some 0) :
    get_skymap_crop catalog altaz reproj store now d =
      Except.error SkymapError.validation := by
  have hv : cameraValid d = false := by
    rcases h with h | h | h | h | h | h | h | h <;> simp [cameraValid, truthy, h]
  unfold get_skymap_crop
  simp only [hv, Bool.false_eq_true, if_false]

theorem camera_validation_falsy_witness :
    get_skymap_crop catalogSome altazZero reprojNan emptyStore 0 noFocalReq =
      Except.error SkymapError.validation :=
  camera_validation_falsy catalogSome altazZero reprojNan emptyStore 0 noFocalReq (Or.inl rfl)

/-- C9 counterexample: a request with focal_length = -50 and otherwise
positive parameters passes validation (Python `all` only checks truthiness)
and the endpoint proceeds to a successful crop computed from the negative
focal length, instead of failing with a validation error. -/
theorem negative_focal_passes_validation :
    cameraValid negFocalReq = true ∧
    get_skymap_crop catalogSome altazZero reprojNan emptyStore 0 negFocalReq =
      Except.ok (buildCrop reprojNan emptyStore (-50) 4 6000 4000
        ((10 : ℚ) : ℝ) ((41 : ℚ) : ℝ)) :=
  ⟨by decide,
    skymap_crop_ok catalogSome altazZero reprojNan emptyStore 0 negFocalReq
      ((10 : ℚ) : ℝ) ((41 : ℚ) : ℝ) (by decide) rfl⟩

/-! ## C10: the explicit-coordinate path never reads the clock -/

/-- C10: for a request whose body carries explicit `ra` and `dec`, the
endpoint is a deterministic function of the request, the tile store and the
resampler: runs at two different instants are identical, because the clock is
read only on the named-target path. -/
theorem explicit_path_time_independent (catalog : Catalog) (altaz : AltAzChain)
    (reproj : ReprojFn) (store : TileStore) (d : RequestData) (r dc : ℚ)
    (hra : d.ra = some r) (hdec : d.dec = some dc) (t1 t2 : ℝ) :
    get_skymap_crop catalog altaz reproj store t1 d =
      get_skymap_crop catalog altaz reproj store t2 d := by
  unfold get_skymap_crop
  rw [apparent_coords_explicit catalog altaz t1 d r dc hra hdec,
    apparent_coords_explicit catalog altaz t2 d r dc hra hdec]

theorem explicit_path_time_independent_witness :
    get_skymap_crop catalogSome altazZero reprojNan emptyStore 0 dBoth =
      get_skymap_crop catalogSome altazZero reprojNan emptyStore 1 dBoth :=
  explicit_path_time_independent catalogSome altazZero reprojNan emptyStore dBoth
    10 41 rfl rfl 0 1

/-! ## C3: the output projection definition -/

/-- C3: every successfully resolved request gets a gnomonic (TAN) output
projection with reference pixel at the output-image center (FITS 1-based),
reference world coordinate equal to the resolved sky coordinate, and pixel
scale `(-fovWidthDeg/width, fovHeightDeg/height)` — the RA axis negated. -/
theorem output_projection_def (catalog : Catalog) (altaz : AltAzChain)
    (reproj : ReprojFn) (store : TileStore) (now : ℝ) (d : RequestData)
    (ra0 dec0 : ℝ) (hv : cameraValid d = true)
    (hres : get_apparent_coords catalog altaz now d = Except.ok (ra0, dec0)) :
    ∃ out, get_skymap_crop catalog altaz reproj store now d = Except.ok out ∧
      out.output_wcs.ctype1 = "RA---TAN" ∧
      out.output_wcs.ctype2 = "DEC--TAN" ∧
      out.output_wcs.crpix1 = ((d.sensor_width_px.getD 0 : ℝ) + 1) / 2 ∧
      out.output_wcs.crpix2 = ((d.sensor_height_px.getD 0 : ℝ) + 1) / 2 ∧
      out.output_wcs.crval1 = ra0 ∧
      out.output_wcs.crval2 = dec0 ∧
      out.output_wcs.cdelt1 =
        -fovAxisDeg (d.pixel_pitch.getD 0) (d.sensor_width_px.getD 0)
            (d.focal_length.getD 0) / (d.sensor_width_px.getD 0 : ℝ) ∧
      out.output_wcs.cdelt2 =
        fovAxisDeg (d.pixel_pitch.getD 0) (d.sensor_height_px.getD 0)
            (d.focal_length.getD 0) / (d.sensor_height_px.getD 0 : ℝ) :=
  ⟨_, skymap_crop_ok catalog altaz reproj store now d ra0 dec0 hv hres,
    rfl, rfl, rfl, rfl, rfl, rfl, rfl, rfl⟩

theorem output_projection_def_witness :
    ∃ out, get_skymap_crop catalogSome altazZero reprojNan emptyStore 0 dBoth =
        Except.ok out ∧
      out.output_wcs.crval1 = ((10 : ℚ) : ℝ) ∧ out.output_wcs.ctype1 = "RA---TAN" := by
  obtain ⟨out, h1, hc1, hc2, hc3, hc4, hc5, hc6, hc7, hc8⟩ :=
    output_projection_def catalogSome altazZero reprojNan emptyStore 0 dBoth
      ((10 : ℚ) : ℝ) ((41 : ℚ) : ℝ) (by decide) rfl
  exact ⟨out, h1, hc5, hc1⟩

/-! ## C6: the fill-value policy and the output range -/

/-- C6: an output pixel whose resampled value is the no-data marker (the
inverse projection left the source footprint, or the interpolation lacked
data) ends as the fill value 0 in that channel — a pixel with all three
channels marked ends as (0, 0, 0) — and every channel of every output pixel
is a finite integer in [0, 255]: never NaN and never infinite. -/
theorem fill_value_policy (catalog : Catalog) (altaz : AltAzChain)
    (reproj : ReprojFn) (store : TileStore) (now : ℝ) (d : RequestData)
    (ra0 dec0 : ℝ) (hv : cameraValid d = true)
    (hres : get_apparent_coords catalog altaz now d = Except.ok (ra0, dec0)) :
    ∃ out, get_skymap_crop catalog altaz reproj store now d = Except.ok out ∧
      (∀ x y : ℕ, out.sampleR x y = PixelSample.nan → (out.outPixel x y).1 = 0) ∧
      (∀ x y : ℕ, out.sampleG x y = PixelSample.nan → (out.outPixel x y).2.1 = 0) ∧
      (∀ x y : ℕ, out.sampleB x y = PixelSample.nan → (out.outPixel x y).2.2 = 0) ∧
      (∀ x y : ℕ,
        (0 ≤ (out.outPixel x y).1 ∧ (out.outPixel x y).1 ≤ 255) ∧
        (0 ≤ (out.outPixel x y).2.1 ∧ (out.outPixel x y).2.1 ≤ 255) ∧
        (0 ≤ (out.outPixel x y).2.2 ∧ (out.outPixel x y).2.2 ≤ 255)) := by
  refine ⟨_, skymap_crop_ok catalog altaz reproj store now d ra0 dec0 hv hres,
    ?_, ?_, ?_, ?_⟩
  · intro x y hxy
    rw [buildCrop_outPixel_fst, hxy]
    decide
  · intro x y hxy
    rw [buildCrop_outPixel_snd_fst, hxy]
    decide
  · intro x y hxy
    rw [buildCrop_outPixel_snd_snd, hxy]
    decide
  · intro x y
    exact ⟨postprocess_range _, postprocess_range _, postprocess_range _⟩

theorem fill_value_policy_witness :
    ∃ out, get_skymap_crop catalogSome altazZero reprojNan emptyStore 0 dBoth =
        Except.ok out ∧ (out.outPixel 0 0).1 = 0 := by
  obtain ⟨out, h1, hR, hG, hB, hrange⟩ :=
    fill_value_policy catalogSome altazZero reprojNan emptyStore 0 dBoth
      ((10 : ℚ) : ℝ) ((41 : ℚ) : ℝ) (by decide) rfl
  have h2 := skymap_crop_ok catalogSome altazZero reprojNan emptyStore 0 dBoth
    ((10 : ℚ) : ℝ) ((41 : ℚ) : ℝ) (by decide) rfl
  rw [h1] at h2
  injection h2 with he
  subst he
  exact ⟨_, h1, hR 0 0 rfl⟩

/-! ## C8: a missing tile is a zero block, not an error -/

/-- C8: whatever tiles exist on disk, a validated and resolved request
succeeds, and every composite pixel lying over a grid cell with no backing
tile file is black (0, 0, 0): absence of a tile yields a blank block at that
cell's paste offset, never an error. -/
theorem missing_tile_zero_block (catalog : Catalog) (altaz : AltAzChain)
    (reproj : ReprojFn) (store : TileStore) (now : ℝ) (d : RequestData)
    (ra0 dec0 : ℝ) (hv : cameraValid d = true)
    (hres : get_apparent_coords catalog altaz now d = Except.ok (ra0, dec0)) :
    ∃ out, get_skymap_crop catalog altaz reproj store now d = Except.ok out ∧
      ∀ x y : ℕ,
        store (out.min_row + ((y / 2048 : ℕ) : ℤ)) (out.min_col + ((x / 2048 : ℕ) : ℤ)) =
          none →
        out.composite x y = (0, 0, 0) := by
  refine ⟨_, skymap_crop_ok catalog altaz reproj store now d ra0 dec0 hv hres, ?_⟩
  intro x y hmiss
  rw [buildCrop_composite]
  simp only [compositePixel, hmiss]
  split <;> rfl

theorem missing_tile_zero_block_witness :
    ∃ out, get_skymap_crop catalogSome altazZero reprojNan emptyStore 0 dBoth =
        Except.ok out ∧ out.composite 0 0 = (0, 0, 0) := by
  obtain ⟨out, h1, h2⟩ :=
    missing_tile_zero_block catalogSome altazZero reprojNan emptyStore 0 dBoth
      ((10 : ℚ) : ℝ) ((41 : ℚ) : ℝ) (by decide) rfl
  exact ⟨out, h1, h2 0 0 rfl⟩

/-! ## C4: the composite raster and its projection definition -/

/-- C4: the composite raster is sized `cols*2048 x rows*2048`, with `rows`
and `cols` taken from the min/max bounding rectangle of the four corners'
tile cells; its equirectangular (CAR) projection has reference pixel at the
raster center, reference world coordinate at the bounding rectangle's RA
center and the mean of the included rows' fixed declination-band centers
(67.5, 22.5, -22.5, -67.5), and a pixel scale of magnitude 45 degrees per
tile width or height on each axis. -/
theorem composite_raster_def (catalog : Catalog) (altaz : AltAzChain)
    (reproj : ReprojFn) (store : TileStore) (now : ℝ) (d : RequestData)
    (ra0 dec0 : ℝ) (hv : cameraValid d = true)
    (hres : get_apparent_coords catalog altaz now d = Except.ok (ra0, dec0)) :
    ∃ out, get_skymap_crop catalog altaz reproj store now d = Except.ok out ∧
      out.composite_width = out.cols * 2048 ∧
      out.composite_height = out.rows * 2048 ∧
      out.rows = out.max_row - out.min_row + 1 ∧
      out.cols = out.max_col - out.min_col + 1 ∧
      (∀ cell ∈ needed_tiles_of ra0 dec0
          (fovAxisDeg (d.pixel_pitch.getD 0) (d.sensor_width_px.getD 0)
            (d.focal_length.getD 0) / 2)
          (fovAxisDeg (d.pixel_pitch.getD 0) (d.sensor_height_px.getD 0)
            (d.focal_length.getD 0) / 2),
        out.min_row ≤ cell.1 ∧ cell.1 ≤ out.max_row ∧
          out.min_col ≤ cell.2 ∧ cell.2 ≤ out.max_col) ∧
      out.stitched_wcs.crpix1 = ((out.composite_width : ℝ) + 1) / 2 ∧
      out.stitched_wcs.crpix2 = ((out.composite_height : ℝ) + 1) / 2 ∧
      out.stitched_wcs.crval1 =
        (((out.min_col : ℝ) * 45) + (((out.max_col : ℝ) + 1) * 45)) / 2 ∧
      out.stitched_wcs.crval2 =
        (∑ r ∈ Finset.Icc out.min_row out.max_row, dec_center r) / (out.rows : ℝ) ∧
      (dec_center 0 = 67.5 ∧ dec_center 1 = 22.5 ∧
        dec_center 2 = -22.5 ∧ dec_center 3 = -67.5) ∧
      out.stitched_wcs.cdelt1 = -(45 / 2048) ∧
      |out.stitched_wcs.cdelt1| = 45 / 2048 ∧
      out.stitched_wcs.cdelt2 = 45 / 2048 ∧
      out.stitched_wcs.ctype1 = "RA---CAR" ∧
      out.stitched_wcs.ctype2 = "DEC--CAR" := by
  refine ⟨_, skymap_crop_ok catalog altaz reproj store now d ra0 dec0 hv hres,
    rfl, rfl, rfl, rfl, ?_, rfl, rfl, ?_, rfl, ⟨rfl, rfl, rfl, rfl⟩, ?_, ?_, rfl, rfl, rfl⟩
  · intro cell hcell
    refine ⟨?_, ?_, ?_, ?_⟩
    · rw [buildCrop_min_row]
      exact listMin_le_of_mem _ _ (List.mem_map_of_mem Prod.fst hcell)
    · rw [buildCrop_max_row]
      exact le_listMax_of_mem _ _ (List.mem_map_of_mem Prod.fst hcell)
    · rw [buildCrop_min_col]
      exact listMin_le_of_mem _ _ (List.mem_map_of_mem Prod.snd hcell)
    · rw [buildCrop_max_col]
      exact le_listMax_of_mem _ _ (List.mem_map_of_mem Prod.snd hcell)
  · rw [buildCrop_stitched_wcs, stitchedWcs_crval1_center]
  · rw [buildCrop_stitched_wcs]
    show (-45 : ℝ) / 2048 = -(45 / 2048)
    norm_num
  · rw [buildCrop_stitched_wcs]
    show |(-45 : ℝ) / 2048| = 45 / 2048
    rw [abs_of_neg (by norm_num : (-45 : ℝ) / 2048 < 0)]
    norm_num

theorem composite_raster_def_witness :
    ∃ out, get_skymap_crop catalogSome altazZero reprojNan emptyStore 0 dBoth =
        Except.ok out ∧
      out.composite_width = out.cols * 2048 ∧ out.stitched_wcs.ctype1 = "RA---CAR" := by
  obtain ⟨out, h1, hB1, hB2, hB3, hB4, hB5, hB6, hB7, hB8, hB9, hB10, hB11, hB12, hB13,
    hB14, hB15⟩ :=
    composite_raster_def catalogSome altazZero reprojNan emptyStore 0 dBoth
      ((10 : ℚ) : ℝ) ((41 : ℚ) : ℝ) (by decide) rfl
  exact ⟨out, h1, hB1, hB14⟩
